import Mathlib

/-!
Shallow embedding of the netview gateway core: the probe execution engine
(gateway/services/probe_executor.py) and the store-and-forward sync engine
(gateway/services/sync_service.py), together with theorems settling the
frozen claims about them.

Conventions of the embedding:
* Python dict-shaped probe specs become a structure whose fields are
  `Option`-typed; a missing key is `none`.  `d.get(k, default)` becomes
  `field.getD default`; `d[k]` on a missing key is a KeyError, modelled by
  the enclosing function returning `Except.error`.
* All network and database effects are parameters: an `Env` value records
  what the outside world answered to each request the code can make during
  one probe execution, and `PushOutcome` / `DbOutcome` record whether a
  backend push or a database statement succeeded.
* Python numbers: timeouts are exact rationals (the source divides
  milliseconds by 1000 producing a float), counters and row ids are `Nat`.
* Python strings are Lean `String`; slicing `s[:n]` is `pySlice`, `len` is
  `pyLen`, `sep.join(xs)` is `pyJoin`.
* Store timestamps (the `checked_at` TEXT column) are modelled as `Nat`
  ordered as the ISO-8601 strings order lexicographically, which is
  chronologically.
-/

/-- The slice of gateway/config.py the two engines read. -/
structure Config where
  gateway_id : String
  default_timeout : Nat
  max_local_results : Nat
deriving DecidableEq, Repr

/-- A probe spec dict as received from the backend; `none` marks a missing
key.  Fields are the ones probe_executor.py reads. -/
structure Probe where
  id : Option String
  type : Option String
  url : Option String
  protocol : Option String
  expectedStatusCode : Option Int
  expectedResponseTime : Option Nat
  method : Option String
  body : Option String
deriving DecidableEq, Repr

/-- Outcome the environment supplies for one HTTP request made through the
requests session: a response, a requests Timeout, or another
RequestException carrying its message str(e). -/
inductive HttpOutcome where
  | resp (statusCode : Int) (text : String)
  | timeout
  | reqError (msg : String)
deriving DecidableEq, Repr

/-- Outcome of the raw TCP connect in check_tcp: the connect_ex return code
together with the parsed host and port, or an exception. -/
inductive TcpOutcome where
  | connectResult (host : String) (port : Nat) (code : Int)
  | exc (msg : String)
deriving DecidableEq, Repr

/-- Outcome of the SMTP connect/quit handshake. -/
inductive SmtpOutcome where
  | ok
  | exc (msg : String)
deriving DecidableEq, Repr

/-- Outcome of the DNS A-record resolution: the answer list for the parsed
host, or an exception. -/
inductive DnsOutcome where
  | answers (host : String) (addrs : List String)
  | exc (msg : String)
deriving DecidableEq, Repr

/-- Outcome of the TLS certificate inspection in the security probe: days
until certificate expiry, or an exception during the handshake. -/
inductive SslOutcome where
  | cert (daysUntilExpiry : Int)
  | exc (msg : String)
deriving DecidableEq, Repr

/-- Outcome of the header-inspection GET in the security probe: the
response header list (name, value), or an exception. -/
inductive SecHttpOutcome where
  | resp (headers : List (String × String))
  | exc (msg : String)
deriving DecidableEq, Repr

/-- Outcome of the browser capability when it is available: the loaded
page observations, or an exception anywhere in the selenium block. -/
inductive BrowserOutcome where
  | page (jsErrors : Nat) (title : String) (brokenLinks : Nat)
  | exc (msg : String)
deriving DecidableEq, Repr

/-- Everything the outside world contributes to one execute_probe call. -/
structure Env where
  http : HttpOutcome
  apiHttp : HttpOutcome
  tcp : TcpOutcome
  smtp : SmtpOutcome
  dns : DnsOutcome
  isHttps : Bool
  ssl : SslOutcome
  secHttp : SecHttpOutcome
  secOuterExc : Option String
  browserSupport : Bool
  browser : BrowserOutcome
  elapsedMs : Nat
  checkedAt : String
deriving DecidableEq, Repr

/-- The partial dict a checker returns, merged by result.update(...) into
the base result whose status/statusCode/errorMessage/responseBody start as
Unknown/None/None/None; since the base fields are all empty, the merged
value of each field is exactly the checker value. -/
structure ResultUpdate where
  status : String
  statusCode : Option Int := none
  errorMessage : Option String := none
  responseBody : Option String := none
deriving DecidableEq, Repr

/-- The full result dict execute_probe returns. -/
structure ProbeResult where
  probeId : String
  gatewayId : String
  status : String
  responseTime : Nat
  statusCode : Option Int
  errorMessage : Option String
  responseBody : Option String
  checkedAt : String
deriving DecidableEq, Repr

/-- Python len on a string (character count, as in CPython). -/
def pyLen (s : String) : Nat := s.data.length

/-- Python slice s[:n]. -/
def pySlice (s : String) (n : Nat) : String := String.mk (s.data.take n)

/-- Python sep.join(xs). -/
def pyJoin (sep : String) : List String → String
  | [] => ""
  | [x] => x
  | x :: y :: ys => x ++ sep ++ pyJoin sep (y :: ys)

/-- Rendering of the timeout number into the timed-out message (the source
interpolates the float into an f-string). -/
def ratStr (q : Rat) : String := toString q

/-- The body-truncation expression shared by check_http (budget 500) and
execute_api_probe (budget 1000): text[:n] if len(text) <= n else
text[:n] + ellipsis. -/
def truncateBody (n : Nat) (text : String) : String :=
  if pyLen text ≤ n then pySlice text n else pySlice text n ++ "..."

/-- Timeout computed by execute_uptime_probe, line 107 of
probe_executor.py: probe.get(expectedResponseTime, config.default_timeout)
divided by 1000. -/
def uptime_timeout (cfg : Config) (probe : Probe) : Rat :=
  ((probe.expectedResponseTime.getD cfg.default_timeout : Nat) : Rat) / 1000

/-- Timeout computed by execute_api_probe, line 130 of probe_executor.py:
same expression as the uptime case. -/
def api_timeout (cfg : Config) (probe : Probe) : Rat :=
  ((probe.expectedResponseTime.getD cfg.default_timeout : Nat) : Rat) / 1000

/-- check_http: GET the url; Up iff the status code equals the expected
one; Timeout and RequestException mapped to Down with their messages. -/
def check_http (_url : Option String) (expected : Int) (timeout : Rat)
    (o : HttpOutcome) : ResultUpdate :=
  match o with
  | .resp code text =>
      if code = expected then
        { status := "Up", statusCode := some code, errorMessage := none,
          responseBody := some (truncateBody 500 text) }
      else
        { status := "Down", statusCode := some code,
          errorMessage :=
            some ("Expected status " ++ toString expected ++ ", got " ++ toString code),
          responseBody := some (truncateBody 500 text) }
  | .timeout =>
      { status := "Down",
        errorMessage := some ("Request timed out after " ++ ratStr timeout ++ "s") }
  | .reqError m =>
      { status := "Down", errorMessage := some m }

/-- check_tcp: connect_ex result 0 means Up; nonzero means Down with the
host:port message; any exception means Down with a prefixed message. -/
def check_tcp (_url : Option String) (_timeout : Rat) (o : TcpOutcome) : ResultUpdate :=
  match o with
  | .connectResult host port code =>
      if code = 0 then
        { status := "Up", statusCode := some 200 }
      else
        { status := "Down",
          errorMessage :=
            some ("TCP connection failed to " ++ host ++ ":" ++ toString port) }
  | .exc m =>
      { status := "Down", errorMessage := some ("TCP check failed: " ++ m) }

/-- check_smtp: clean connect/quit means Up with synthetic code 220. -/
def check_smtp (_url : Option String) (_timeout : Rat) (o : SmtpOutcome) : ResultUpdate :=
  match o with
  | .ok => { status := "Up", statusCode := some 220 }
  | .exc m =>
      { status := "Down", errorMessage := some ("SMTP check failed: " ++ m) }

/-- check_dns: Up iff at least one A record is returned, reporting the
address list in the body. -/
def check_dns (_url : Option String) (_timeout : Rat) (o : DnsOutcome) : ResultUpdate :=
  match o with
  | .answers host addrs =>
      if addrs.isEmpty then
        { status := "Down",
          errorMessage := some ("DNS resolution failed for " ++ host) }
      else
        { status := "Up", statusCode := some 200,
          responseBody := some ("Resolved to: " ++ pyJoin ", " addrs) }
  | .exc m =>
      { status := "Down", errorMessage := some ("DNS check failed: " ++ m) }

/-- execute_uptime_probe: sub-dispatch on the protocol hint. -/
def execute_uptime_probe (cfg : Config) (probe : Probe) (env : Env) : ResultUpdate :=
  let protocol := probe.protocol.getD "HTTPS"
  let expected := probe.expectedStatusCode.getD 200
  let timeout := uptime_timeout cfg probe
  if protocol = "HTTP" ∨ protocol = "HTTPS" then
    check_http probe.url expected timeout env.http
  else if protocol = "TCP" then
    check_tcp probe.url timeout env.tcp
  else if protocol = "SMTP" then
    check_smtp probe.url timeout env.smtp
  else if protocol = "DNS" then
    check_dns probe.url timeout env.dns
  else
    { status := "Down", errorMessage := some ("Unsupported protocol: " ++ protocol) }

/-- execute_api_probe: one request with the configured method; status
derivation as in check_http; body budget 1000. -/
def execute_api_probe (cfg : Config) (probe : Probe) (env : Env) : ResultUpdate :=
  let expected := probe.expectedStatusCode.getD 200
  let timeout := api_timeout cfg probe
  match env.apiHttp with
  | .resp code text =>
      if code = expected then
        { status := "Up", statusCode := some code, errorMessage := none,
          responseBody := some (truncateBody 1000 text) }
      else
        { status := "Down", statusCode := some code,
          errorMessage :=
            some ("Expected status " ++ toString expected ++ ", got " ++ toString code),
          responseBody := some (truncateBody 1000 text) }
  | .timeout =>
      { status := "Down",
        errorMessage := some ("Request timed out after " ++ ratStr timeout ++ "s") }
  | .reqError m =>
      { status := "Down", errorMessage := some m }

/-- The fixed list of security response headers the security probe checks. -/
def securityHeaders : List String :=
  ["Strict-Transport-Security", "X-Content-Type-Options", "X-Frame-Options",
   "X-XSS-Protection", "Content-Security-Policy"]

/-- The server-product tokens whose presence in a lowercased Server header
counts as version disclosure. -/
def serverTokens : List String := ["apache/", "nginx/", "iis/"]

/-- Whether t occurs in s as a contiguous substring (list-of-characters
infix), used for the Server header token test. -/
def isPreList : List Char → List Char → Bool
  | [], _ => true
  | _ :: _, [] => false
  | a :: as, b :: bs => a = b && isPreList as bs

/-- Infix test on character lists. -/
def isInfixList (t : List Char) : List Char → Bool
  | [] => isPreList t []
  | b :: bs => isPreList t (b :: bs) || isInfixList t bs

/-- Python `t in s` on strings. -/
def containsSub (s t : String) : Bool := isInfixList t.data s.data

/-- Case-insensitive header membership, as in the requests
CaseInsensitiveDict. -/
def hasHeader (headers : List (String × String)) (name : String) : Bool :=
  headers.any (fun kv => kv.1.toLower = name.toLower)

/-- Case-insensitive header lookup with a default. -/
def headerGet (headers : List (String × String)) (name dflt : String) : String :=
  match headers.find? (fun kv => kv.1.toLower = name.toLower) with
  | some kv => kv.2
  | none => dflt

/-- Rendering of the security issue list into the JSON body string. -/
def issuesBody (issues : List String) : String :=
  "security_issues: [" ++ pyJoin ", " issues ++ "]"

/-- The certificate-expiry findings of the security probe: only inspected
for an https target; fewer than 30 remaining days or a handshake error
each contribute one issue. -/
def security_ssl_issues (env : Env) : List String :=
  if env.isHttps then
    match env.ssl with
    | .cert days =>
        if days < 30 then
          ["SSL certificate expires in " ++ toString days ++ " days"]
        else []
    | .exc m => ["SSL certificate error: " ++ m]
  else []

/-- The header findings of the security probe: missing entries of the
fixed header list, plus a disclosed server product version. -/
def security_http_issues (env : Env) : List String :=
  match env.secHttp with
  | .resp headers =>
      let missing := securityHeaders.filter (fun h => !(hasHeader headers h))
      let missingIssue :=
        if missing.isEmpty then []
        else ["Missing security headers: " ++ pyJoin ", " missing]
      let server := headerGet headers "Server" ""
      let disclosed :=
        if server ≠ "" ∧ serverTokens.any (fun t => containsSub server.toLower t) then
          ["Server version disclosed: " ++ server]
        else []
      missingIssue ++ disclosed
  | .exc m => ["HTTP check failed: " ++ m]

/-- execute_security_probe: union of the TLS-expiry findings and the
header findings; Up with 200 when no issue, Warning with 206 otherwise;
the outer try maps any other exception to Down. -/
def execute_security_probe (probe : Probe) (env : Env) : ResultUpdate :=
  match env.secOuterExc with
  | some m =>
      { status := "Down", errorMessage := some ("Security check failed: " ++ m) }
  | none =>
      let _url := probe.url
      let issues := security_ssl_issues env ++ security_http_issues env
      if issues.isEmpty then
        { status := "Up", statusCode := some 200, errorMessage := none,
          responseBody := some (issuesBody issues) }
      else
        { status := "Warning", statusCode := some 206,
          errorMessage := some (pyJoin "; " issues),
          responseBody := some (issuesBody issues) }

/-- Rendering of the browser probe body dict. -/
def browserBody (title : String) (issues : List String) : String :=
  "title: " ++ title ++ ", issues: [" ++ pyJoin ", " issues ++ "]"

/-- The issue list the browser probe derives from one loaded page. -/
def browser_issues (jsErrors : Nat) (title : String) (brokenLinks : Nat) : List String :=
  (if jsErrors > 0 then [toString jsErrors ++ " JavaScript errors found"] else [])
  ++ (if title = "" ∨ title.toLower = "error" ∨ title.toLower = "404"
        ∨ title.toLower = "500" then
        ["Problematic page title: " ++ title]
      else [])
  ++ (if brokenLinks > 0 then [toString brokenLinks ++ " broken links found"] else [])

/-- execute_browser_probe: unsupported capability short-circuits to Down;
otherwise the page observations are folded into an issue list, Warning iff
nonempty; any exception maps to Down with a prefixed message. -/
def execute_browser_probe (probe : Probe) (env : Env) : ResultUpdate :=
  if !env.browserSupport then
    { status := "Down",
      errorMessage := some "Browser monitoring not supported (selenium not installed)" }
  else
    let _url := probe.url
    match env.browser with
    | .exc m =>
        { status := "Down", errorMessage := some ("Browser check failed: " ++ m) }
    | .page jsErrors title brokenLinks =>
        let issues : List String := browser_issues jsErrors title brokenLinks
        if issues.isEmpty then
          { status := "Up", statusCode := some 200, errorMessage := none,
            responseBody := some (browserBody title issues) }
        else
          { status := "Warning", statusCode := some 200,
            errorMessage := some (pyJoin "; " issues),
            responseBody := some (browserBody title issues) }

/-- The dispatch over the probe type inside the try block of
execute_probe. -/
def dispatch_probe (cfg : Config) (probe : Probe) (env : Env) : ResultUpdate :=
  let ptype := probe.type.getD "Uptime"
  if ptype = "Uptime" then execute_uptime_probe cfg probe env
  else if ptype = "API" then execute_api_probe cfg probe env
  else if ptype = "Security" then execute_security_probe probe env
  else if ptype = "Browser" then execute_browser_probe probe env
  else { status := "Down", errorMessage := some ("Unsupported probe type: " ++ ptype) }

/-- execute_probe.  Reading probe[id] on a probe without the key raises
KeyError inside the try block; the except handler then evaluates
probe[id] again (in its log line and in the fallback dict), so the
KeyError escapes to the caller: that is the `.error` case.  With the key
present no exception can reach the handler in this model, every checker
catching its own. -/
def execute_probe (cfg : Config) (probe : Probe) (env : Env) :
    Except String ProbeResult :=
  match probe.id with
  | none => .error "KeyError: id"
  | some pid =>
      let upd := dispatch_probe cfg probe env
      .ok { probeId := pid
            gatewayId := cfg.gateway_id
            status := upd.status
            responseTime := env.elapsedMs
            statusCode := upd.statusCode
            errorMessage := upd.errorMessage
            responseBody := upd.responseBody
            checkedAt := env.checkedAt }

/-- The three execution counters of the ProbeExecutor instance. -/
structure Counters where
  total : Nat
  successful : Nat
  failed : Nat
deriving DecidableEq, Repr

/-- Counter effect of one execute_probe call: total is incremented on
entry; on a normal return successful or failed is incremented according to
the terminal status; on the escaping KeyError the handler has already
incremented failed before its log line raises. -/
def execute_probe_counters (cfg : Config) (probe : Probe) (env : Env)
    (c : Counters) : Counters :=
  let c1 : Counters := { c with total := c.total + 1 }
  match execute_probe cfg probe env with
  | .ok r =>
      if r.status = "Up" then { c1 with successful := c1.successful + 1 }
      else { c1 with failed := c1.failed + 1 }
  | .error _ => { c1 with failed := c1.failed + 1 }

/-- One row of the probe_results table. -/
structure Row where
  id : Nat
  probe_id : String
  gateway_id : String
  status : String
  response_time : Nat
  status_code : Option Int
  error_message : Option String
  response_body : Option String
  checkedAt : Nat
  synced : Bool
deriving DecidableEq, Repr

/-- The arguments of the INSERT in store_result_locally (the result dict
without the store-assigned id and synced flag). -/
structure ResultRecord where
  probe_id : String
  gateway_id : String
  status : String
  response_time : Nat
  status_code : Option Int
  error_message : Option String
  response_body : Option String
  checkedAt : Nat
deriving DecidableEq, Repr

/-- The probe_results table plus the AUTOINCREMENT cursor. -/
structure Store where
  rows : List Row
  nextId : Nat
deriving DecidableEq, Repr

/-- Insertion of a row into a list sorted ascending by checkedAt. -/
def insertRow (r : Row) : List Row → List Row
  | [] => [r]
  | x :: xs => if r.checkedAt ≤ x.checkedAt then r :: x :: xs else x :: insertRow r xs

/-- Sorting by checkedAt ascending: the ORDER BY checked_at ASC of the
sqlite queries (a deterministic refinement of the unspecified tie order). -/
def sortRows : List Row → List Row
  | [] => []
  | x :: xs => insertRow x (sortRows xs)

/-- The INSERT of store_result_locally: a fresh autoincrement id, synced
defaulting to FALSE. -/
def append_result (res : ResultRecord) (s : Store) : Store :=
  { rows := s.rows ++
      [{ id := s.nextId
         probe_id := res.probe_id
         gateway_id := res.gateway_id
         status := res.status
         response_time := res.response_time
         status_code := res.status_code
         error_message := res.error_message
         response_body := res.response_body
         checkedAt := res.checkedAt
         synced := false }]
    nextId := s.nextId + 1 }

/-- cleanup_old_results: when the row count exceeds the cap, delete the
rows whose ids are the first (count - cap) of the synced rows ordered by
checked_at ascending; otherwise leave the table alone. -/
def cleanup_old_results (cap : Nat) (s : Store) : Store :=
  let total := s.rows.length
  if total > cap then
    let toDelete : List Nat :=
      ((sortRows (s.rows.filter (fun r => r.synced))).take (total - cap)).map Row.id
    { s with rows := s.rows.filter (fun r => decide (r.id ∉ toDelete)) }
  else s

/-- get_unsynced_results: the rows with synced = FALSE ordered by
checked_at ascending. -/
def get_unsynced_results (s : Store) : List Row :=
  sortRows (s.rows.filter (fun r => !r.synced))

/-- mark_results_synced: one UPDATE setting synced = TRUE on the given
ids. -/
def mark_results_synced (ids : List Nat) (s : Store) : Store :=
  { s with rows := s.rows.map (fun r => if r.id ∈ ids then { r with synced := true } else r) }

/-- Outcome of the result-push POST: acknowledged, or any transport or
backend-side failure (requests exception, including the HTTPError from
raise_for_status) with its message. -/
inductive PushOutcome where
  | ok
  | err (msg : String)
deriving DecidableEq, Repr

/-- sync_results.  Returns (count, networkCallMade, store).  No unsynced
rows: return 0 without touching the network.  Otherwise push the whole
batch; only on acknowledgement mark exactly the batch ids synced and
return the batch size; on failure mark nothing and return 0. -/
def sync_results (push : PushOutcome) (s : Store) : Nat × Bool × Store :=
  let unsynced := get_unsynced_results s
  if unsynced.isEmpty then (0, false, s)
  else
    let result_ids := unsynced.map Row.id
    match push with
    | .ok => (unsynced.length, true, mark_results_synced result_ids s)
    | .err _ => (0, true, s)

/-- Outcome of one database statement block. -/
inductive DbOutcome where
  | ok
  | err (msg : String)
deriving DecidableEq, Repr

/-- The INSERT-and-commit block of store_result_locally, as the fallible
operation the surrounding try observes. -/
def insert_op (dbo : DbOutcome) (res : ResultRecord) (s : Store) :
    Except String Store :=
  match dbo with
  | .ok => .ok (append_result res s)
  | .err m => .error m

/-- The body of cleanup_old_results as the fallible operation its own
internal try observes. -/
def cleanup_op (dbo : DbOutcome) (cap : Nat) (s : Store) : Except String Store :=
  match dbo with
  | .ok => .ok (cleanup_old_results cap s)
  | .err m => .error m

/-- store_result_locally: insert, then clean up.  A failing insert is
swallowed by the outer except (the row is lost, the caller learns
nothing); a failing cleanup is swallowed by the internal except of
cleanup_old_results (the inserted row stays).  The call always returns
normally, hence the `.ok` on every path. -/
def store_result_locally (insertDb cleanupDb : DbOutcome) (cap : Nat)
    (res : ResultRecord) (s : Store) : Except String Store :=
  match insert_op insertDb res s with
  | .error _ => .ok s
  | .ok s1 =>
      match cleanup_op cleanupDb cap s1 with
      | .error _ => .ok s1
      | .ok s2 => .ok s2

/-- A concrete configuration: the default settings of gateway/config.py
(DEFAULT_TIMEOUT 30 seconds, MAX_LOCAL_RESULTS 1000). -/
def cfg0 : Config :=
  { gateway_id := "gw-1", default_timeout := 30, max_local_results := 1000 }

/-- A benign concrete environment. -/
def env0 : Env :=
  { http := .resp 200 "ok"
    apiHttp := .resp 200 "ok"
    tcp := .connectResult "example.com" 80 0
    smtp := .ok
    dns := .answers "example.com" ["93.184.216.34"]
    isHttps := false
    ssl := .cert 100
    secHttp := .resp []
    secOuterExc := none
    browserSupport := false
    browser := .exc "no driver"
    elapsedMs := 12
    checkedAt := "2024-01-01T00:00:00Z" }

/-- A probe dict with every key missing; in particular the id key. -/
def probeNoId : Probe :=
  { id := none, type := none, url := none, protocol := none,
    expectedStatusCode := none, expectedResponseTime := none,
    method := none, body := none }

/-- A well-formed uptime probe without an expectedResponseTime. -/
def probe1 : Probe :=
  { probeNoId with id := some "p-1", url := some "https://example.com" }

/-- C1: the claim that execute_probe never lets an exception escape, even
on a malformed probe dict, is refuted by the code: on a probe without the
id key the KeyError raised at probe_executor.py line 50 is caught, but the
except handler itself evaluates probe[id] again (lines 89 and 92), so the
KeyError escapes to the caller instead of a Down result being returned. -/
theorem C1_handler_keyerror_escapes :
    execute_probe cfg0 probeNoId env0 = .error "KeyError: id" := rfl

/-- C2: the claim that an absent expectedResponseTime falls back to the
global default timeout in seconds, undivided, is refuted: lines 107 and
130 of probe_executor.py divide the fallback by 1000 as well, so with the
documented default of 30 seconds the checker runs with a 3/100 second
timeout; with the field present the division matches the claim. -/
theorem C2_default_timeout_divided :
    uptime_timeout cfg0 probeNoId = 3 / 100 ∧
    api_timeout cfg0 probeNoId = 3 / 100 ∧
    uptime_timeout cfg0 { probeNoId with expectedResponseTime := some 500 } = 1 / 2 ∧
    (3 / 100 : Rat) ≠ 30 := by
  refine ⟨?_, ?_, ?_, by norm_num⟩ <;>
    norm_num [uptime_timeout, api_timeout, probeNoId, cfg0]

/-- A string with a nonempty left part is nonempty. -/
theorem append_ne_left (s t : String) (h : s ≠ "") : s ++ t ≠ "" := by
  intro hc
  apply h
  have hd : s.data ++ t.data = [] := congrArg String.data hc
  have h2 := List.append_eq_nil.mp hd
  cases s
  cases h2.1
  rfl

/-- A string with a nonempty right part is nonempty. -/
theorem append_ne_right (s t : String) (h : t ≠ "") : s ++ t ≠ "" := by
  intro hc
  apply h
  have hd : s.data ++ t.data = [] := congrArg String.data hc
  have h2 := List.append_eq_nil.mp hd
  cases t
  cases h2.2
  rfl

/-- Joining a list whose head is nonempty gives a nonempty string. -/
theorem pyJoin_ne_empty (sep x : String) (xs : List String) (h : x ≠ "") :
    pyJoin sep (x :: xs) ≠ "" := by
  cases xs with
  | nil => simpa [pyJoin] using h
  | cons y ys =>
      show x ++ sep ++ pyJoin sep (y :: ys) ≠ ""
      exact append_ne_left _ _ (append_ne_left _ _ h)

/-- Joining a nonempty list of nonempty strings gives a nonempty string. -/
theorem pyJoin_ne_empty_of_all (sep : String) (l : List String)
    (hne : l ≠ []) (hall : ∀ i ∈ l, i ≠ "") : pyJoin sep l ≠ "" := by
  cases l with
  | nil => cases hne rfl
  | cons x xs => exact pyJoin_ne_empty sep x xs (hall x (by simp))

/-- Slicing below the length is the identity. -/
theorem pySlice_of_le (s : String) (n : Nat) (h : pyLen s ≤ n) : pySlice s n = s := by
  obtain ⟨d⟩ := s
  exact congrArg String.mk (List.take_of_length_le h)

/-- truncateBody keeps a short body unchanged. -/
theorem truncateBody_of_le (n : Nat) (text : String) (h : pyLen text ≤ n) :
    truncateBody n text = text := by
  unfold truncateBody
  rw [if_pos h]
  exact pySlice_of_le _ _ h

/-- truncateBody cuts a long body and appends the ellipsis marker. -/
theorem truncateBody_of_gt (n : Nat) (text : String) (h : n < pyLen text) :
    truncateBody n text = pySlice text n ++ "..." := by
  unfold truncateBody
  rw [if_neg (Nat.not_le.mpr h)]

/-- C6: for the HTTP/HTTPS reachability check the status is Up exactly
when the observed status code equals the expected one; a mismatch yields
Down with the expected-versus-got message; a timeout yields Down with the
fixed timed-out-after message; any other transport failure yields Down
with the exception text passed through; and the uptime dispatcher routes
HTTP and HTTPS protocols to this checker. -/
theorem C6_http_status_semantics (url : Option String) (expected : Int)
    (timeout : Rat) (o : HttpOutcome) :
    (∀ code text, o = .resp code text →
      ((check_http url expected timeout o).status = "Up" ↔ code = expected) ∧
      (code = expected → (check_http url expected timeout o).errorMessage = none) ∧
      (code ≠ expected →
        (check_http url expected timeout o).status = "Down" ∧
        (check_http url expected timeout o).errorMessage =
          some ("Expected status " ++ toString expected ++ ", got " ++ toString code))) ∧
    (o = .timeout →
      (check_http url expected timeout o).status = "Down" ∧
      (check_http url expected timeout o).errorMessage =
        some ("Request timed out after " ++ ratStr timeout ++ "s")) ∧
    (∀ m, o = .reqError m →
      (check_http url expected timeout o).status = "Down" ∧
      (check_http url expected timeout o).errorMessage = some m) ∧
    (∀ cfg probe env, probe.protocol = some "HTTP" ∨ probe.protocol = some "HTTPS" →
      execute_uptime_probe cfg probe env =
        check_http probe.url (probe.expectedStatusCode.getD 200)
          (uptime_timeout cfg probe) env.http) := by
  refine ⟨?_, ?_, ?_, ?_⟩
  · rintro code text rfl
    by_cases h : code = expected
    · subst h
      simp [check_http]
    · refine ⟨?_, fun he => absurd he h, fun _ => ?_⟩
      · simp only [check_http, if_neg h]
        exact ⟨fun hc => absurd hc (by decide), fun hc => absurd hc h⟩
      · simp [check_http, h]
  · rintro rfl
    simp [check_http]
  · rintro m rfl
    simp [check_http]
  · intro cfg probe env hp
    unfold execute_uptime_probe
    rcases hp with hp | hp <;> rw [hp] <;> simp

/-- Witness for C6 at the 503-versus-200 example of the spec. -/
theorem C6_http_status_semantics_witness :
    (check_http (some "http://example.com") 200 (3 / 100) (.resp 503 "x")).status = "Down" ∧
    (check_http (some "http://example.com") 200 (3 / 100) (.resp 503 "x")).errorMessage =
      some ("Expected status " ++ toString (200 : Int) ++ ", got " ++ toString (503 : Int)) :=
  ((C6_http_status_semantics (some "http://example.com") 200 (3 / 100)
    (.resp 503 "x")).1 503 "x" rfl).2.2 (by decide)

/-- C7: a captured body is truncated to 500 characters by the reachability
checker and to 1000 characters by the API checker; a body within the
budget is stored unchanged, a longer one is cut at the budget with the
ellipsis marker appended. -/
theorem C7_body_truncation (url : Option String) (expected : Int)
    (timeout : Rat) (cfg : Config) (probe : Probe) (env : Env) :
    (∀ code text, env.http = .resp code text →
      (check_http url expected timeout env.http).responseBody =
        some (truncateBody 500 text)) ∧
    (∀ code text, env.apiHttp = .resp code text →
      (execute_api_probe cfg probe env).responseBody =
        some (truncateBody 1000 text)) ∧
    (∀ n text, pyLen text ≤ n → truncateBody n text = text) ∧
    (∀ n text, n < pyLen text →
      truncateBody n text = pySlice text n ++ "...") := by
  refine ⟨?_, ?_, fun n text h => truncateBody_of_le n text h,
    fun n text h => truncateBody_of_gt n text h⟩
  · intro code text he
    rw [he]
    by_cases h : code = expected <;> simp [check_http, h]
  · intro code text he
    unfold execute_api_probe
    rw [he]
    by_cases h : code = probe.expectedStatusCode.getD 200 <;> simp [h]

/-- Witness for C7: a 6-character body against budgets 4 and 1000. -/
theorem C7_body_truncation_witness :
    (check_http (some "http://example.com") 200 (3 / 100)
      (.resp 200 "abcdef")).responseBody = some (truncateBody 500 "abcdef") ∧
    truncateBody 4 "abcdef" = pySlice "abcdef" 4 ++ "..." ∧
    truncateBody 1000 "abcdef" = "abcdef" := by
  have h := C7_body_truncation (some "http://example.com") 200 (3 / 100)
    cfg0 probe1 { env0 with http := .resp 200 "abcdef" }
  exact ⟨h.1 200 "abcdef" rfl, h.2.2.2 4 "abcdef" (by decide),
    h.2.2.1 1000 "abcdef" (by decide)⟩

/-- The status/error-message invariant on a checker update: Up carries no
message, anything else carries a nonempty one. -/
def updOk (u : ResultUpdate) : Prop :=
  (u.status = "Up" → u.errorMessage = none) ∧
  (u.status ≠ "Up" → ∃ m, u.errorMessage = some m ∧ m ≠ "")

/-- An Up update with no message satisfies the invariant. -/
theorem updOk_up (sc : Option Int) (rb : Option String) :
    updOk { status := "Up", statusCode := sc, errorMessage := none, responseBody := rb } :=
  ⟨fun _ => rfl, fun h => absurd rfl h⟩

/-- A Down update with a nonempty message satisfies the invariant. -/
theorem updOk_down (sc : Option Int) (rb : Option String) (m : String) (hm : m ≠ "") :
    updOk { status := "Down", statusCode := sc, errorMessage := some m, responseBody := rb } :=
  ⟨fun h => absurd h (show ("Down" : String) ≠ "Up" by decide), fun _ => ⟨m, rfl, hm⟩⟩

/-- A Warning update with a nonempty message satisfies the invariant. -/
theorem updOk_warning (sc : Option Int) (rb : Option String) (m : String) (hm : m ≠ "") :
    updOk { status := "Warning", statusCode := sc, errorMessage := some m, responseBody := rb } :=
  ⟨fun h => absurd h (show ("Warning" : String) ≠ "Up" by decide), fun _ => ⟨m, rfl, hm⟩⟩

/-- check_http satisfies the invariant whenever a transport-failure
message passed through str(e) is nonempty. -/
theorem updOk_check_http (url : Option String) (expected : Int) (timeout : Rat)
    (o : HttpOutcome) (h : ∀ m, o = .reqError m → m ≠ "") :
    updOk (check_http url expected timeout o) := by
  cases o with
  | resp code text =>
      by_cases hc : code = expected
      · simp only [check_http, if_pos hc]
        exact updOk_up _ _
      · simp only [check_http, if_neg hc]
        exact updOk_down _ _ _
          (append_ne_left _ _ (append_ne_left _ _ (append_ne_left _ _ (by decide))))
  | timeout =>
      exact updOk_down _ _ _ (append_ne_left _ _ (append_ne_left _ _ (by decide)))
  | reqError m =>
      exact updOk_down _ _ _ (h m rfl)

/-- check_tcp satisfies the invariant. -/
theorem updOk_check_tcp (url : Option String) (timeout : Rat) (o : TcpOutcome) :
    updOk (check_tcp url timeout o) := by
  cases o with
  | connectResult host port code =>
      by_cases hc : code = 0
      · simp only [check_tcp, if_pos hc]
        exact updOk_up _ _
      · simp only [check_tcp, if_neg hc]
        exact updOk_down _ _ _
          (append_ne_left _ _ (append_ne_left _ _ (append_ne_left _ _ (by decide))))
  | exc m =>
      exact updOk_down _ _ _ (append_ne_left _ _ (by decide))

/-- check_smtp satisfies the invariant. -/
theorem updOk_check_smtp (url : Option String) (timeout : Rat) (o : SmtpOutcome) :
    updOk (check_smtp url timeout o) := by
  cases o with
  | ok => exact updOk_up _ _
  | exc m => exact updOk_down _ _ _ (append_ne_left _ _ (by decide))

/-- check_dns satisfies the invariant. -/
theorem updOk_check_dns (url : Option String) (timeout : Rat) (o : DnsOutcome) :
    updOk (check_dns url timeout o) := by
  cases o with
  | answers host addrs =>
      by_cases ha : addrs.isEmpty
      · simp only [check_dns, if_pos ha]
        exact updOk_down _ _ _ (append_ne_left _ _ (by decide))
      · simp only [check_dns, if_neg ha]
        exact updOk_up _ _
  | exc m =>
      exact updOk_down _ _ _ (append_ne_left _ _ (by decide))

/-- execute_uptime_probe satisfies the invariant. -/
theorem updOk_execute_uptime_probe (cfg : Config) (probe : Probe) (env : Env)
    (h : ∀ m, env.http = .reqError m → m ≠ "") :
    updOk (execute_uptime_probe cfg probe env) := by
  unfold execute_uptime_probe
  by_cases h1 : probe.protocol.getD "HTTPS" = "HTTP" ∨ probe.protocol.getD "HTTPS" = "HTTPS"
  · rw [if_pos h1]
    exact updOk_check_http _ _ _ _ h
  · rw [if_neg h1]
    by_cases h2 : probe.protocol.getD "HTTPS" = "TCP"
    · rw [if_pos h2]
      exact updOk_check_tcp _ _ _
    · rw [if_neg h2]
      by_cases h3 : probe.protocol.getD "HTTPS" = "SMTP"
      · rw [if_pos h3]
        exact updOk_check_smtp _ _ _
      · rw [if_neg h3]
        by_cases h4 : probe.protocol.getD "HTTPS" = "DNS"
        · rw [if_pos h4]
          exact updOk_check_dns _ _ _
        · rw [if_neg h4]
          exact updOk_down _ _ _ (append_ne_left _ _ (by decide))

/-- execute_api_probe satisfies the invariant whenever a transport-failure
message passed through str(e) is nonempty. -/
theorem updOk_execute_api_probe (cfg : Config) (probe : Probe) (env : Env)
    (h : ∀ m, env.apiHttp = .reqError m → m ≠ "") :
    updOk (execute_api_probe cfg probe env) := by
  unfold execute_api_probe
  cases ho : env.apiHttp with
  | resp code text =>
      by_cases hc : code = probe.expectedStatusCode.getD 200
      · simp only [if_pos hc]
        exact updOk_up _ _
      · simp only [if_neg hc]
        exact updOk_down _ _ _
          (append_ne_left _ _ (append_ne_left _ _ (append_ne_left _ _ (by decide))))
  | timeout =>
      exact updOk_down _ _ _ (append_ne_left _ _ (append_ne_left _ _ (by decide)))
  | reqError m =>
      exact updOk_down _ _ _ (h m ho)

/-- Every certificate finding is a nonempty string. -/
theorem mem_security_ssl_issues_ne (env : Env) :
    ∀ i ∈ security_ssl_issues env, i ≠ "" := by
  intro i hi
  cases hb : env.isHttps with
  | false => simp [security_ssl_issues, hb] at hi
  | true =>
      cases hs : env.ssl with
      | cert days =>
          by_cases hd : days < 30
          · simp [security_ssl_issues, hb, hs, hd] at hi
            subst hi
            exact append_ne_right _ _ (by decide)
          · simp [security_ssl_issues, hb, hs, hd] at hi
      | exc m =>
          simp [security_ssl_issues, hb, hs] at hi
          subst hi
          exact append_ne_left _ _ (by decide)

/-- An element of a conditional singleton is that singleton. -/
theorem mem_ite_singleton {c : Prop} [Decidable c] {i x : String}
    (h : i ∈ (if c then [x] else ([] : List String))) : i = x := by
  split at h
  · simpa using h
  · simp at h

/-- An element of a reversed conditional singleton is that singleton. -/
theorem mem_ite_singleton_r {c : Prop} [Decidable c] {i x : String}
    (h : i ∈ (if c then ([] : List String) else [x])) : i = x := by
  split at h
  · simp at h
  · simpa using h

/-- Every header finding is a nonempty string. -/
theorem mem_security_http_issues_ne (env : Env) :
    ∀ i ∈ security_http_issues env, i ≠ "" := by
  intro i hi
  cases hs : env.secHttp with
  | resp headers =>
      simp only [security_http_issues, hs] at hi
      rcases List.mem_append.mp hi with h | h
      · rw [mem_ite_singleton_r h]
        exact append_ne_left _ _ (by decide)
      · rw [mem_ite_singleton h]
        exact append_ne_left _ _ (by decide)
  | exc m =>
      simp [security_http_issues, hs] at hi
      subst hi
      exact append_ne_left _ _ (by decide)

/-- Every browser finding is a nonempty string. -/
theorem mem_browser_issues_ne (js : Nat) (title : String) (broken : Nat) :
    ∀ i ∈ browser_issues js title broken, i ≠ "" := by
  intro i hi
  unfold browser_issues at hi
  rcases List.mem_append.mp hi with h | h
  · rcases List.mem_append.mp h with h2 | h2
    · rw [mem_ite_singleton h2]
      exact append_ne_right _ _ (by decide)
    · rw [mem_ite_singleton h2]
      exact append_ne_left _ _ (by decide)
  · rw [mem_ite_singleton h]
    exact append_ne_right _ _ (by decide)

/-- execute_security_probe satisfies the invariant. -/
theorem updOk_execute_security_probe (probe : Probe) (env : Env) :
    updOk (execute_security_probe probe env) := by
  unfold execute_security_probe
  cases ho : env.secOuterExc with
  | some m =>
      exact updOk_down _ _ _ (append_ne_left _ _ (by decide))
  | none =>
      by_cases hi : (security_ssl_issues env ++ security_http_issues env).isEmpty
      · simp only [hi, if_pos rfl]
        exact updOk_up _ _
      · simp only [hi, if_neg]
        refine updOk_warning _ _ _ ?_
        refine pyJoin_ne_empty_of_all _ _ (fun hc => hi (by simp [hc])) ?_
        intro i him
        rcases List.mem_append.mp him with h | h
        · exact mem_security_ssl_issues_ne env i h
        · exact mem_security_http_issues_ne env i h

/-- execute_browser_probe satisfies the invariant. -/
theorem updOk_execute_browser_probe (probe : Probe) (env : Env) :
    updOk (execute_browser_probe probe env) := by
  unfold execute_browser_probe
  cases hb : env.browserSupport with
  | false =>
      exact updOk_down _ _ _ (by decide)
  | true =>
      cases ho : env.browser with
      | exc m =>
          exact updOk_down _ _ _ (append_ne_left _ _ (by decide))
      | page js title broken =>
          by_cases hi : (browser_issues js title broken).isEmpty
          · simp only [hi, if_pos rfl]
            exact updOk_up _ _
          · simp only [hi, if_neg]
            refine updOk_warning _ _ _ ?_
            exact pyJoin_ne_empty_of_all _ _ (fun hc => hi (by simp [hc]))
              (mem_browser_issues_ne js title broken)

/-- The full dispatch satisfies the invariant. -/
theorem updOk_dispatch_probe (cfg : Config) (probe : Probe) (env : Env)
    (h1 : ∀ m, env.http = .reqError m → m ≠ "")
    (h2 : ∀ m, env.apiHttp = .reqError m → m ≠ "") :
    updOk (dispatch_probe cfg probe env) := by
  unfold dispatch_probe
  by_cases t1 : probe.type.getD "Uptime" = "Uptime"
  · rw [if_pos t1]
    exact updOk_execute_uptime_probe cfg probe env h1
  · rw [if_neg t1]
    by_cases t2 : probe.type.getD "Uptime" = "API"
    · rw [if_pos t2]
      exact updOk_execute_api_probe cfg probe env h2
    · rw [if_neg t2]
      by_cases t3 : probe.type.getD "Uptime" = "Security"
      · rw [if_pos t3]
        exact updOk_execute_security_probe probe env
      · rw [if_neg t3]
        by_cases t4 : probe.type.getD "Uptime" = "Browser"
        · rw [if_pos t4]
          exact updOk_execute_browser_probe probe env
        · rw [if_neg t4]
          exact updOk_down _ _ _ (append_ne_left _ _ (by decide))

/-- C5: every result execute_probe returns satisfies the error-message
invariant: status Up carries no error message, any other status carries a
nonempty one, provided the exception strings the environment hands to the
two bare str(e) passthroughs are nonempty (every other message is built
from a nonempty literal). -/
theorem C5_status_error_message (cfg : Config) (probe : Probe) (env : Env)
    (h1 : ∀ m, env.http = .reqError m → m ≠ "")
    (h2 : ∀ m, env.apiHttp = .reqError m → m ≠ "")
    (r : ProbeResult) (hok : execute_probe cfg probe env = .ok r) :
    (r.status = "Up" → r.errorMessage = none) ∧
    (r.status ≠ "Up" → ∃ m, r.errorMessage = some m ∧ m ≠ "") := by
  unfold execute_probe at hok
  cases hid : probe.id with
  | none => simp [hid] at hok
  | some pid =>
      simp only [hid] at hok
      injection hok with hr
      subst hr
      have hu := updOk_dispatch_probe cfg probe env h1 h2
      exact ⟨hu.1, hu.2⟩

/-- A concrete Up result: probe1 under env0. -/
def r0 : ProbeResult :=
  { probeId := "p-1", gatewayId := "gw-1", status := "Up", responseTime := 12,
    statusCode := some 200, errorMessage := none, responseBody := some "ok",
    checkedAt := "2024-01-01T00:00:00Z" }

/-- Witness for C5 at probe1 under env0. -/
theorem C5_status_error_message_witness :
    (r0.status = "Up" → r0.errorMessage = none) ∧
    (r0.status ≠ "Up" → ∃ m, r0.errorMessage = some m ∧ m ≠ "") :=
  C5_status_error_message cfg0 probe1 env0
    (fun _ hm => nomatch hm) (fun _ hm => nomatch hm) r0 rfl


/-- Whether one execute_probe call counts as successful: a normal return
with terminal status Up.  The escaping-KeyError path counts as failed (the
handler increments failed before its log line re-raises). -/
def callIsUp (res : Except String ProbeResult) : Prop :=
  match res with
  | .ok r => r.status = "Up"
  | .error _ => False

/-- C9: one execute_probe call increments total by exactly one and
exactly one of successful (terminal status Up) and failed (any other
outcome, including the escaping KeyError) by exactly one; all three
counters are non-decreasing, and total = successful + failed is preserved
by every call. -/
theorem C9_counters (cfg : Config) (probe : Probe) (env : Env) (c : Counters) :
    (execute_probe_counters cfg probe env c).total = c.total + 1 ∧
    (callIsUp (execute_probe cfg probe env) →
      (execute_probe_counters cfg probe env c).successful = c.successful + 1 ∧
      (execute_probe_counters cfg probe env c).failed = c.failed) ∧
    (¬callIsUp (execute_probe cfg probe env) →
      (execute_probe_counters cfg probe env c).failed = c.failed + 1 ∧
      (execute_probe_counters cfg probe env c).successful = c.successful) ∧
    c.total ≤ (execute_probe_counters cfg probe env c).total ∧
    c.successful ≤ (execute_probe_counters cfg probe env c).successful ∧
    c.failed ≤ (execute_probe_counters cfg probe env c).failed ∧
    (c.total = c.successful + c.failed →
      (execute_probe_counters cfg probe env c).total =
        (execute_probe_counters cfg probe env c).successful +
          (execute_probe_counters cfg probe env c).failed) := by
  cases hres : execute_probe cfg probe env with
  | ok r =>
      by_cases hu : r.status = "Up"
      · simp only [execute_probe_counters, hres, callIsUp, if_pos hu]
        refine ⟨?_, fun _ => ⟨?_, ?_⟩, fun hn => absurd hu hn, ?_, ?_, ?_, fun he => ?_⟩ <;>
          first
            | trivial
            | omega
      · simp only [execute_probe_counters, hres, callIsUp, if_neg hu]
        refine ⟨?_, fun hy => absurd hy hu, fun _ => ⟨?_, ?_⟩, ?_, ?_, ?_, fun he => ?_⟩ <;>
          first
            | trivial
            | omega
  | error e =>
      simp only [execute_probe_counters, hres, callIsUp]
      refine ⟨?_, fun hy => hy.elim, fun _ => ⟨?_, ?_⟩, ?_, ?_, ?_, fun he => ?_⟩ <;>
        first
          | trivial
          | omega

/-- Witness for C9 at probe1 under env0 starting from consistent counters. -/
theorem C9_counters_witness :
    (execute_probe_counters cfg0 probe1 env0 ⟨7, 4, 3⟩).total = 7 + 1 ∧
    (execute_probe_counters cfg0 probe1 env0 ⟨7, 4, 3⟩).total =
      (execute_probe_counters cfg0 probe1 env0 ⟨7, 4, 3⟩).successful +
        (execute_probe_counters cfg0 probe1 env0 ⟨7, 4, 3⟩).failed :=
  ⟨(C9_counters cfg0 probe1 env0 ⟨7, 4, 3⟩).1,
   (C9_counters cfg0 probe1 env0 ⟨7, 4, 3⟩).2.2.2.2.2.2 rfl⟩
/-- Membership through insertRow. -/
theorem mem_insertRow (r a : Row) (l : List Row) :
    a ∈ insertRow r l ↔ a = r ∨ a ∈ l := by
  induction l with
  | nil => simp [insertRow]
  | cons x xs ih =>
      unfold insertRow
      by_cases h : r.checkedAt ≤ x.checkedAt
      · simp [h]
      · simp only [if_neg h, List.mem_cons, ih]
        tauto

/-- Membership through sortRows. -/
theorem mem_sortRows (a : Row) (l : List Row) : a ∈ sortRows l ↔ a ∈ l := by
  induction l with
  | nil => simp [sortRows]
  | cons x xs ih =>
      unfold sortRows
      rw [mem_insertRow, ih]
      simp

/-- insertRow preserves sortedness by checkedAt. -/
theorem pairwise_insertRow (r : Row) (l : List Row)
    (h : l.Pairwise (fun a b => a.checkedAt ≤ b.checkedAt)) :
    (insertRow r l).Pairwise (fun a b => a.checkedAt ≤ b.checkedAt) := by
  induction l with
  | nil => simp [insertRow]
  | cons x xs ih =>
      rw [List.pairwise_cons] at h
      unfold insertRow
      by_cases hle : r.checkedAt ≤ x.checkedAt
      · rw [if_pos hle, List.pairwise_cons]
        refine ⟨?_, List.pairwise_cons.mpr h⟩
        intro b hb
        rcases List.mem_cons.mp hb with rfl | hb2
        · exact hle
        · exact Nat.le_trans hle (h.1 b hb2)
      · rw [if_neg hle, List.pairwise_cons]
        refine ⟨?_, ih h.2⟩
        intro b hb
        rcases (mem_insertRow r b xs).mp hb with rfl | hb2
        · exact Nat.le_of_not_le hle
        · exact h.1 b hb2

/-- sortRows sorts by checkedAt ascending. -/
theorem pairwise_sortRows (l : List Row) :
    (sortRows l).Pairwise (fun a b => a.checkedAt ≤ b.checkedAt) := by
  induction l with
  | nil => exact List.Pairwise.nil
  | cons x xs ih => exact pairwise_insertRow x (sortRows xs) ih

/-- C3: eviction never touches an unsynced row: every unsynced row
survives cleanup_old_results for every cap; nothing is deleted unless the
row count exceeds the cap; every deleted row is synced and no older (by
check timestamp) than any surviving synced row; and a store of purely
unsynced rows is left untouched no matter how far it exceeds the cap. -/
theorem C3_eviction_preserves_unsynced (cap : Nat) (s : Store)
    (hnd : (s.rows.map Row.id).Nodup) :
    (∀ r ∈ s.rows, r.synced = false → r ∈ (cleanup_old_results cap s).rows) ∧
    (s.rows.length ≤ cap → cleanup_old_results cap s = s) ∧
    (∀ r ∈ s.rows, r ∉ (cleanup_old_results cap s).rows →
      r.synced = true ∧
      ∀ k ∈ (cleanup_old_results cap s).rows, k.synced = true →
        r.checkedAt ≤ k.checkedAt) ∧
    ((∀ r ∈ s.rows, r.synced = false) → cleanup_old_results cap s = s) := by
  by_cases hlen : s.rows.length > cap
  case neg =>
    have heq : cleanup_old_results cap s = s := by
      unfold cleanup_old_results
      rw [if_neg hlen]
    rw [heq]
    refine ⟨fun r hr _ => hr, fun _ => rfl, ?_, fun _ => rfl⟩
    intro r hr hno
    exact absurd hr hno
  case pos =>
    set sorted := sortRows (s.rows.filter (fun r => r.synced)) with hsorted
    set n := s.rows.length - cap with hn
    set toDel := (sorted.take n).map Row.id with htoDel
    have hrows : (cleanup_old_results cap s).rows =
        s.rows.filter (fun r => decide (r.id ∉ toDel)) := by
      unfold cleanup_old_results
      rw [if_pos hlen]
    -- a row whose id is in the delete list is a synced member of the take
    have hdel : ∀ r ∈ s.rows, r.id ∈ toDel → r.synced = true ∧ r ∈ sorted.take n := by
      intro r hr hid
      rcases List.mem_map.mp hid with ⟨d, hd, hdid⟩
      have hdsort : d ∈ sorted := List.mem_of_mem_take hd
      have hdfil : d ∈ s.rows.filter (fun r => r.synced) :=
        (mem_sortRows d _).mp hdsort
      have hdmem : d ∈ s.rows := (List.mem_filter.mp hdfil).1
      have hdsync : d.synced = true := by
        simpa using (List.mem_filter.mp hdfil).2
      have hdr : d = r := List.inj_on_of_nodup_map hnd hdmem hr hdid
      subst hdr
      exact ⟨hdsync, hd⟩
    refine ⟨?_, ?_, ?_, ?_⟩
    · intro r hr hsync
      rw [hrows]
      refine List.mem_filter.mpr ⟨hr, ?_⟩
      rw [decide_eq_true_eq]
      intro hid
      have := (hdel r hr hid).1
      rw [hsync] at this
      cases this
    · intro hle
      omega
    · intro r hr hno
      rw [hrows] at hno
      have hid : r.id ∈ toDel := by
        by_contra hnot
        exact hno (List.mem_filter.mpr ⟨hr, by rw [decide_eq_true_eq]; exact hnot⟩)
      obtain ⟨hsync, htake⟩ := hdel r hr hid
      refine ⟨hsync, ?_⟩
      intro k hk hksync
      rw [hrows] at hk
      have hkmem : k ∈ s.rows := (List.mem_filter.mp hk).1
      have hknotdel : k.id ∉ toDel := by
        have := (List.mem_filter.mp hk).2
        rwa [decide_eq_true_eq] at this
      have hksort : k ∈ sorted :=
        (mem_sortRows k _).mpr (List.mem_filter.mpr ⟨hkmem, by simp [hksync]⟩)
      have hknottake : k ∉ sorted.take n := fun hc =>
        hknotdel (List.mem_map.mpr ⟨k, hc, rfl⟩)
      have hkdrop : k ∈ sorted.drop n := by
        have := (List.mem_append.mp ((List.take_append_drop n sorted) ▸ hksort))
        tauto
      have hpw := pairwise_sortRows (s.rows.filter (fun r => r.synced))
      rw [← hsorted, ← List.take_append_drop n sorted, List.pairwise_append] at hpw
      exact hpw.2.2 r htake k hkdrop
    · intro hall
      have hfil : s.rows.filter (fun r => r.synced) = [] := by
        rw [List.filter_eq_nil_iff]
        intro a ha
        simp [hall a ha]
      have htd : toDel = [] := by
        rw [htoDel, hsorted, hfil]
        simp [sortRows]
      have hself : s.rows.filter (fun r => decide (r.id ∉ toDel)) = s.rows := by
        rw [List.filter_eq_self]
        intro a _
        rw [decide_eq_true_eq, htd]
        simp
      unfold cleanup_old_results
      rw [if_pos hlen]
      show { rows := s.rows.filter (fun r => decide (r.id ∉ toDel)),
             nextId := s.nextId } = s
      rw [hself]

/-- An old synced row. -/
def rowA : Row :=
  { id := 1, probe_id := "p-1", gateway_id := "gw-1", status := "Up",
    response_time := 4, status_code := some 200, error_message := none,
    response_body := none, checkedAt := 10, synced := true }

/-- A middle unsynced row. -/
def rowB : Row :=
  { id := 2, probe_id := "p-2", gateway_id := "gw-1", status := "Down",
    response_time := 9, status_code := none, error_message := some "boom",
    response_body := none, checkedAt := 20, synced := false }

/-- A recent synced row. -/
def rowC : Row :=
  { id := 3, probe_id := "p-1", gateway_id := "gw-1", status := "Up",
    response_time := 6, status_code := some 200, error_message := none,
    response_body := none, checkedAt := 30, synced := true }

/-- A three-row store over the cap of 2 used below. -/
def store3 : Store := { rows := [rowA, rowB, rowC], nextId := 4 }

/-- Witness for C3: the unsynced middle row survives a cleanup that must
delete one row. -/
theorem C3_eviction_preserves_unsynced_witness :
    rowB ∈ (cleanup_old_results 2 store3).rows :=
  (C3_eviction_preserves_unsynced 2 store3 (by decide)).1 rowB (by decide) rfl
/-- An unsynced row of the store appears in its unsynced listing. -/
theorem mem_get_unsynced (s : Store) (r : Row) (hr : r ∈ s.rows)
    (hs : r.synced = false) : r ∈ get_unsynced_results s := by
  unfold get_unsynced_results
  exact (mem_sortRows r _).mpr (List.mem_filter.mpr ⟨hr, by simp [hs]⟩)

/-- Marking exactly the unsynced batch leaves no unsynced row behind. -/
theorem get_unsynced_after_mark (s : Store) :
    get_unsynced_results
      (mark_results_synced ((get_unsynced_results s).map Row.id) s) = [] := by
  set M := mark_results_synced ((get_unsynced_results s).map Row.id) s with hM
  have hall : ∀ a ∈ M.rows, a.synced = true := by
    intro a ha
    rw [hM] at ha
    unfold mark_results_synced at ha
    rcases List.mem_map.mp ha with ⟨r, hr, hfr⟩
    by_cases hrs : r.synced = true
    · subst hfr
      by_cases hid : r.id ∈ (get_unsynced_results s).map Row.id
      · simp [hid]
      · simp [hid, hrs]
    · have hid : r.id ∈ (get_unsynced_results s).map Row.id :=
        List.mem_map.mpr ⟨r, mem_get_unsynced s r hr (Bool.not_eq_true _ ▸ hrs), rfl⟩
      subst hfr
      simp [hid]
  show get_unsynced_results M = []
  unfold get_unsynced_results
  have hfil : M.rows.filter (fun r => !r.synced) = [] := by
    rw [List.filter_eq_nil_iff]
    intro a ha
    simp [hall a ha]
  rw [hfil]
  rfl

/-- A row outside the marked id set is untouched by mark_results_synced. -/
theorem mark_preserves_unmarked (ids : List Nat) (s : Store) (r : Row)
    (hr : r ∈ s.rows) (hid : r.id ∉ ids) :
    r ∈ (mark_results_synced ids s).rows := by
  unfold mark_results_synced
  have : (if r.id ∈ ids then { r with synced := true } else r) = r := if_neg hid
  exact this ▸ List.mem_map_of_mem _ hr

/-- C4: sync_results is all-or-nothing.  On any push failure it marks
nothing synced and returns 0 with the store unchanged; with no unsynced
rows it returns 0 without a network call; on a successful acknowledgement
it returns the batch size, marks exactly the ids of the pushed batch
synced (rows outside the batch are untouched), and the unsynced set
becomes empty. -/
theorem C4_sync_atomicity (s : Store) (push : PushOutcome) :
    (∀ m, push = .err m →
      (sync_results push s).1 = 0 ∧ (sync_results push s).2.2 = s) ∧
    ((get_unsynced_results s).isEmpty = true →
      sync_results push s = (0, false, s)) ∧
    (push = .ok → (get_unsynced_results s).isEmpty = false →
      (sync_results push s).1 = (get_unsynced_results s).length ∧
      (sync_results push s).2.2 =
        mark_results_synced ((get_unsynced_results s).map Row.id) s ∧
      get_unsynced_results (sync_results push s).2.2 = [] ∧
      ∀ r ∈ s.rows, r.id ∉ (get_unsynced_results s).map Row.id →
        r ∈ (sync_results push s).2.2.rows) := by
  by_cases he : (get_unsynced_results s).isEmpty
  · refine ⟨?_, ?_, ?_⟩
    · intro m hp
      unfold sync_results
      rw [if_pos he]
      exact ⟨rfl, rfl⟩
    · intro _
      unfold sync_results
      rw [if_pos he]
    · intro _ hne
      rw [he] at hne
      cases hne
  · refine ⟨?_, ?_, ?_⟩
    · intro m hp
      subst hp
      unfold sync_results
      rw [if_neg he]
      exact ⟨rfl, rfl⟩
    · intro hyes
      rw [hyes] at he
      cases he rfl
    · intro hp _
      subst hp
      have hmain : sync_results PushOutcome.ok s =
          ((get_unsynced_results s).length, true,
            mark_results_synced ((get_unsynced_results s).map Row.id) s) := by
        unfold sync_results
        rw [if_neg he]
      rw [hmain]
      refine ⟨rfl, rfl, get_unsynced_after_mark s, ?_⟩
      intro r hr hid
      exact mark_preserves_unmarked _ s r hr hid

/-- Witness for C4: a failed push leaves store3 unchanged, and a
successful push syncs its single unsynced row. -/
theorem C4_sync_atomicity_witness :
    (sync_results (.err "connection refused") store3).2.2 = store3 ∧
    (sync_results .ok store3).1 = 1 ∧
    get_unsynced_results (sync_results .ok store3).2.2 = [] := by
  refine ⟨((C4_sync_atomicity store3 (.err "connection refused")).1
      "connection refused" rfl).2, ?_, ?_⟩
  · have h := ((C4_sync_atomicity store3 .ok).2.2 rfl (by decide)).1
    rw [h]
    decide
  · exact ((C4_sync_atomicity store3 .ok).2.2 rfl (by decide)).2.2.1
/-- A one-row store whose single row is unsynced. -/
def storeU : Store := { rows := [rowB], nextId := 3 }

/-- C8, counterexample to the claim as stated: after a first sync_results
call whose push fails, a second call with no rows appended in between does
issue a network request and returns the retried batch size 1, not 0. -/
theorem C8_retry_counterexample :
    (sync_results .ok (sync_results (.err "connection refused") storeU).2.2).1 = 1 ∧
    (sync_results .ok (sync_results (.err "connection refused") storeU).2.2).2.1 = true := by
  exact ⟨by decide, by decide⟩

/-- C8, amended: with no unsynced rows sync_results returns 0 without a
network call; consequently, when the first of two calls does not fail its
push (it succeeded or had nothing to send) and no unsynced rows are
appended in between, the second call returns 0 and makes no network
request. -/
theorem C8_idempotent_after_success (s : Store) (p1 p2 : PushOutcome)
    (h : p1 = PushOutcome.ok ∨ (get_unsynced_results s).isEmpty = true) :
    (sync_results p2 (sync_results p1 s).2.2).1 = 0 ∧
    (sync_results p2 (sync_results p1 s).2.2).2.1 = false ∧
    ((get_unsynced_results s).isEmpty = true → sync_results p1 s = (0, false, s)) := by
  by_cases he : (get_unsynced_results s).isEmpty
  · have h1 : sync_results p1 s = (0, false, s) := by
      unfold sync_results
      rw [if_pos he]
    rw [h1]
    have h2 : sync_results p2 s = (0, false, s) := by
      unfold sync_results
      rw [if_pos he]
    exact ⟨by rw [h2], by rw [h2], fun _ => rfl⟩
  · have hp1 : p1 = PushOutcome.ok := by
      rcases h with h | h
      · exact h
      · exact absurd h he
    subst hp1
    have h1 : (sync_results PushOutcome.ok s).2.2 =
        mark_results_synced ((get_unsynced_results s).map Row.id) s := by
      unfold sync_results
      rw [if_neg he]
    rw [h1]
    have hemp : (get_unsynced_results
        (mark_results_synced ((get_unsynced_results s).map Row.id) s)).isEmpty = true := by
      rw [get_unsynced_after_mark s]
      rfl
    have h2 : sync_results p2
        (mark_results_synced ((get_unsynced_results s).map Row.id) s) =
        (0, false, mark_results_synced ((get_unsynced_results s).map Row.id) s) := by
      unfold sync_results
      rw [if_pos hemp]
    exact ⟨by rw [h2], by rw [h2], fun hc => absurd hc he⟩

/-- Witness for C8 amended: after a successful first sync of storeU the
second call returns 0 and stays offline. -/
theorem C8_idempotent_after_success_witness :
    (sync_results .ok (sync_results .ok storeU).2.2).1 = 0 ∧
    (sync_results .ok (sync_results .ok storeU).2.2).2.1 = false :=
  ⟨(C8_idempotent_after_success storeU .ok .ok (Or.inl rfl)).1,
   (C8_idempotent_after_success storeU .ok .ok (Or.inl rfl)).2.1⟩

/-- The empty store. -/
def emptyStore : Store := { rows := [], nextId := 1 }

/-- A concrete result record to append. -/
def rec0 : ResultRecord :=
  { probe_id := "p-1", gateway_id := "gw-1", status := "Up",
    response_time := 12, status_code := some 200, error_message := none,
    response_body := some "ok", checkedAt := 100 }

/-- C10, counterexample to the claim as stated: when the database failure
happens during the cleanup step, after the insert has already committed,
the result is not dropped: the call returns normally with the appended row
present in the store. -/
theorem C10_cleanup_failure_keeps_row :
    store_result_locally .ok (.err "disk failure") 0 rec0 emptyStore =
      .ok (append_result rec0 emptyStore) ∧
    (append_result rec0 emptyStore).rows ≠ [] := by
  exact ⟨rfl, by decide⟩

/-- C10, amended: store_result_locally never raises to its caller: every
database failure is swallowed and the call returns normally with no
indication of loss; a failure during the append drops the result silently
(state unchanged); a failure during the subsequent cleanup keeps the
appended result and only skips eviction; with no failure the append and
the cleanup both take effect. -/
theorem C10_swallow_and_drop (ins clean : DbOutcome) (cap : Nat)
    (res : ResultRecord) (s : Store) :
    (∃ s2, store_result_locally ins clean cap res s = .ok s2) ∧
    (∀ m, ins = .err m → store_result_locally ins clean cap res s = .ok s) ∧
    (∀ m, ins = .ok → clean = .err m →
      store_result_locally ins clean cap res s = .ok (append_result res s)) ∧
    (ins = .ok → clean = .ok →
      store_result_locally ins clean cap res s =
        .ok (cleanup_old_results cap (append_result res s))) := by
  cases ins with
  | err m =>
      refine ⟨⟨s, rfl⟩, fun _ _ => rfl, fun m2 hok _ => ?_, fun hok _ => ?_⟩
      · cases hok
      · cases hok
  | ok =>
      cases clean with
      | err m =>
          refine ⟨⟨append_result res s, rfl⟩, fun m2 herr => ?_, fun _ _ _ => rfl,
            fun _ hok => ?_⟩
          · cases herr
          · cases hok
      | ok =>
          refine ⟨⟨cleanup_old_results cap (append_result res s), rfl⟩,
            fun m2 herr => ?_, fun m2 _ herr => ?_, fun _ _ => rfl⟩
          · cases herr
          · cases herr

/-- Witness for C10 amended: a failing insert leaves the empty store
unchanged and returns normally. -/
theorem C10_swallow_and_drop_witness :
    store_result_locally (.err "disk failure") .ok 1000 rec0 emptyStore =
      .ok emptyStore :=
  (C10_swallow_and_drop (.err "disk failure") .ok 1000 rec0 emptyStore).2.1
    "disk failure" rfl
